import Mathlib

/-
Verification development for the Tempest library (Go).
The definitions below are a shallow embedding of the source files
src/client.go, src/rest.go and src/unnamed/part_000 (package tempest).
Go maps are modelled as association lists, Go time values as natural
numbers (seconds; the zero value of time.Time is 0), and user supplied
handler closures either as explicit function fields (when their return
value steers control flow) or as presence flags (when only their
invocation is observable).  Every observable action of the webhook
dispatcher (response writes, handler invocations, panics) is recorded in
an explicit event trace.
-/

set_option autoImplicit false

namespace Tempest

/-- Interaction type tag PING_TYPE (also PING_INTERACTION_TYPE). -/
def PING_TYPE : Nat := 1

/-- Interaction type tag APPLICATION_COMMAND_TYPE. -/
def APPLICATION_COMMAND_TYPE : Nat := 2

/-- Interaction type tag MESSAGE_COMPONENT_TYPE. -/
def MESSAGE_COMPONENT_TYPE : Nat := 3

/-- Interaction type tag APPLICATION_COMMAND_AUTO_COMPLETE_TYPE. -/
def APPLICATION_COMMAND_AUTO_COMPLETE_TYPE : Nat := 4

/-- Interaction type tag MODAL_SUBMIT_INTERACTION_TYPE. -/
def MODAL_SUBMIT_INTERACTION_TYPE : Nat := 5

/-- Component type tag COMPONENT_BUTTON. -/
def COMPONENT_BUTTON : Nat := 2

/-- Option type tag OPTION_SUB_COMMAND. -/
def OPTION_SUB_COMMAND : Nat := 1

/-- Command option tree node: name, option type and nested options.
Mirrors the Option struct of the source (the Type field is renamed Typ
because Type is reserved in Lean). -/
inductive OptionNode where
  | mk : String → Nat → List OptionNode → OptionNode
deriving Repr

/-- Name field of an option node. -/
def OptionNode.Name : OptionNode → String
  | .mk n _ _ => n

/-- Type field of an option node. -/
def OptionNode.Typ : OptionNode → Nat
  | .mk _ t _ => t

/-- Options field of an option node. -/
def OptionNode.Options : OptionNode → List OptionNode
  | .mk _ _ o => o

/-- Data payload of an interaction: command or component name, custom id,
component type and option list. -/
structure InteractionData where
  Name : String
  CustomId : String
  ComponentType : Nat
  Options : List OptionNode
deriving Repr

/-- Inbound interaction envelope (fields inspected by the dispatcher:
type tag, guild id with 0 meaning a DM context, and the data payload). -/
structure Interaction where
  Typ : Nat
  GuildID : Nat
  Data : InteractionData
deriving Repr

/-- Command record: name, DM availability flag, options and whether an
autocomplete handler closure is attached (nil or not in the source). -/
structure Command where
  Name : String
  AvailableInDM : Bool
  Options : List OptionNode
  hasAutoCompleteHandler : Bool
deriving Repr

/-- Zero value of the Command struct, as produced by the Go literal with
no fields set. -/
def Command.zero : Command :=
  { Name := "", AvailableInDM := false, Options := [], hasAutoCompleteHandler := false }

/-- Assignment m[k] = v on a Go map modelled as an association list:
replace the binding if the key is present, otherwise append it. -/
def mapInsert {α : Type} (m : List (String × α)) (k : String) (v : α) :
    List (String × α) :=
  if m.any (fun p => p.1 == k) then
    m.map (fun p => if p.1 == k then (k, v) else p)
  else
    m ++ [(k, v)]

/-- Go delete(m, k) for every k in keys. -/
def mapDeleteKeys {α : Type} (m : List (String × α)) (keys : List String) :
    List (String × α) :=
  m.filter (fun p => !(keys.contains p.1))

/-- Command resolution shared by client.getCommand (src/client.go lines
336-353): when the first option is a nested subcommand marker, descend
one level (root name, subcommand name) before the lookup, otherwise look
the root name up under the reserved sentinel key. -/
def resolveCommand (commands : List (String × List (String × Command)))
    (interaction : Interaction) : Command × Interaction × Bool :=
  match interaction.Data.Options with
  | opt0 :: _ =>
    if opt0.Typ = OPTION_SUB_COMMAND then
      let rootName := interaction.Data.Name
      let interaction :=
        { interaction with
          Data := { interaction.Data with Name := opt0.Name, Options := opt0.Options } }
      match (commands.lookup rootName).bind (fun tree => tree.lookup interaction.Data.Name) with
      | none => (Command.zero, interaction, false)
      | some command => (command, interaction, true)
    else
      match (commands.lookup interaction.Data.Name).bind (fun tree => tree.lookup "-") with
      | none => (Command.zero, interaction, false)
      | some command => (command, interaction, true)
  | [] =>
    match (commands.lookup interaction.Data.Name).bind (fun tree => tree.lookup "-") with
    | none => (Command.zero, interaction, false)
    | some command => (command, interaction, true)

/-- Entry of the button wait queue (queuedButton struct of src/client.go):
the armed key set and the handler closure, identified here by a number so
that handler invocations are observable in traces. -/
structure queuedButton where
  CustomIds : List String
  handlerId : Nat
deriving Repr

/-- The client struct of src/client.go.  queuedButtons is an Option so
that the nil map (the Go zero value) is distinguished from an initialized
empty map; interactionHandler is a presence flag (its behaviour is not
observable beyond being called); preCommandExecutionHandler keeps its
functional shape because its return value steers the dispatch (none
models the nil function, and the inner Option models the returned
pointer that may be nil). -/
structure client where
  ApplicationId : Nat
  PublicKey : List Nat
  commands : List (String × List (String × Command))
  queuedButtons : Option (List (String × queuedButton))
  interactionHandler : Bool
  preCommandExecutionHandler : Option (Interaction → Option String)
  running : Bool

/-- ClientOptions struct of src/client.go. -/
structure ClientOptions where
  ApplicationId : Nat
  PublicKey : String
  InteractionHandler : Bool
  PreCommandExecutionHandler : Option (Interaction → Option String)

/-- Value of a single hexadecimal digit, as accepted by Go
encoding/hex.fromHexChar. -/
def hexCharVal (ch : Char) : Option Nat :=
  if '0' ≤ ch ∧ ch ≤ '9' then some (ch.toNat - '0'.toNat)
  else if 'a' ≤ ch ∧ ch ≤ 'f' then some (ch.toNat - 'a'.toNat + 10)
  else if 'A' ≤ ch ∧ ch ≤ 'F' then some (ch.toNat - 'A'.toNat + 10)
  else none

/-- Go hex.DecodeString over the character list: fails on an odd length
or any non hexadecimal character. -/
def hexDecodeList : List Char → Option (List Nat)
  | [] => some []
  | [_] => none
  | a :: b :: rest =>
    match hexCharVal a, hexCharVal b, hexDecodeList rest with
    | some hi, some lo, some tail => some ((16 * hi + lo) :: tail)
    | _, _, _ => none

/-- Go hex.DecodeString. -/
def hexDecodeString (s : String) : Option (List Nat) :=
  hexDecodeList s.data

/-- CreateClient from src/client.go lines 202-218.  The Go constructor
panics when the public key is not valid hex (modelled as none).  The
struct literal sets Rest, ApplicationId, PublicKey, commands,
interactionHandler and running only; every omitted field gets its Go
zero value: preCommandExecutionHandler stays the nil function and
queuedButtons stays the nil map. -/
def CreateClient (options : ClientOptions) : Option client :=
  match hexDecodeString options.PublicKey with
  | none => none
  | some discordPublicKey =>
    some
      { ApplicationId := options.ApplicationId
        PublicKey := discordPublicKey
        commands := []
        queuedButtons := none
        interactionHandler := options.InteractionHandler
        preCommandExecutionHandler := none
        running := false }

/-- RegisterCommand from src/client.go lines 148-161: registering a root
command whose name is already present panics (modelled as error),
otherwise a fresh subtree holding the command under the sentinel key is
installed.  (The nil versus empty normalization of the Options slice has
no observable counterpart here since lists carry no nil.) -/
def client.RegisterCommand (c : client) (command : Command) : Except String client :=
  match c.commands.lookup command.Name with
  | none =>
    .ok { c with commands := mapInsert c.commands command.Name [("-", command)] }
  | some _ =>
    .error ("found already registered \"" ++ command.Name ++ "\" slash command")

/-- RegisterSubCommand from src/client.go lines 163-170: adding a
subcommand under an unknown root panics (modelled as error). -/
def client.RegisterSubCommand (c : client) (subCommand : Command)
    (rootCommandName : String) : Except String client :=
  match c.commands.lookup rootCommandName with
  | some tree =>
    .ok { c with commands := mapInsert c.commands rootCommandName (mapInsert tree subCommand.Name subCommand) }
  | none =>
    .error ("missing \"" ++ rootCommandName ++ "\" slash command in registry (register root command first before adding subcommands)")

/-- One registration call performed at startup. -/
inductive RegAction where
  | root (cmd : Command)
  | sub (cmd : Command) (rootName : String)

/-- Run a sequence of registration calls, stopping at the first panic. -/
def runRegistrations (c : client) : List RegAction → Except String client
  | [] => .ok c
  | a :: rest =>
    match (match a with
           | .root cmd => c.RegisterCommand cmd
           | .sub cmd rootName => c.RegisterSubCommand cmd rootName) with
    | .error e => .error e
    | .ok c2 => runRegistrations c2 rest

/-- Go runtime panic observable in this model. -/
inductive GoPanic where
  | nilMapAssignment
deriving DecidableEq, Repr

/-- The assignment loop of CreateButtonMenu: for every key in order,
client.queuedButtons[key] = anchor.  Assignment into the nil map is a
runtime panic in Go, which aborts at the first key. -/
def assignAll (qb : Option (List (String × queuedButton))) (anchor : queuedButton) :
    List String → Except GoPanic (Option (List (String × queuedButton)))
  | [] => .ok qb
  | key :: rest =>
    match qb with
    | none => .error .nilMapAssignment
    | some m => assignAll (some (mapInsert m key anchor)) anchor rest

/-- Timer scheduled by time.AfterFunc inside CreateButtonMenu: it
captures the armed key set and the handler and fires after the clamped
timeout; the source never stops it. -/
structure ScheduledTimer where
  CustomIds : List String
  handlerId : Nat
  fireAfter : Nat
deriving Repr

/-- CreateButtonMenu from src/client.go lines 41-61: clamp the timeout to
at most 3 seconds, register the same anchor under every key (panicking if
queuedButtons is the nil map), and schedule the expiry timer. -/
def client.CreateButtonMenu (c : client) (CustomIds : List String) (timeout : Nat)
    (handlerId : Nat) : Except GoPanic (client × ScheduledTimer) :=
  let timeout := if 3 < timeout then 3 else timeout
  let anchor : queuedButton := { CustomIds := CustomIds, handlerId := handlerId }
  match assignAll c.queuedButtons anchor CustomIds with
  | .error e => .error e
  | .ok qb =>
    .ok ({ c with queuedButtons := qb },
         { CustomIds := CustomIds, handlerId := handlerId, fireAfter := timeout })

/-- A body payload written by the dispatcher; the byte-level content of
the fixed payloads is irrelevant to the claims, only which payload was
written and whether it is JSON. -/
inductive BodyTag where
  | pingBody
  | unknownCommandBody
  | ackBody
  | preHandlerBody (payload : String)
  | autocompleteBody
  | errorText
deriving DecidableEq, Repr

/-- Whether a written payload is a JSON document (all fixed payloads of
the dispatcher are; the text written by http.Error is not). -/
def BodyTag.isJsonBody : BodyTag → Bool
  | .errorText => false
  | _ => true

/-- Observable action performed while serving one inbound request. -/
inductive HttpEvent where
  | verify
  | parseBody
  | httpError (status : Nat)
  | writeHeader (status : Nat)
  | headerAdd (k v : String)
  | write (body : BodyTag)
  | panicked (msg : String)
  | callPreCommandExecutionHandler
  | callSlashCommandHandler (name : String)
  | callQueuedButtonHandler (handlerId : Nat) (delivered : Bool)
  | callInteractionHandler
  | callAutoCompleteHandler (name : String)
  | callComponentHandler (key : String)
  | sendQueuedComponent (key : String)
  | callGenericComponentHandler
  | callMiddleware
  | callModalHandler (key : String)
  | sendQueuedModal (key : String)
  | callGenericModalHandler
deriving DecidableEq, Repr

/-- Net/http response semantics: the first of WriteHeader, Write or
http.Error commits the status code; a later WriteHeader is superfluous
and ignored; every Write (and the text body of http.Error) appends to
the body.  A handler that returns without writing yields the default 200
with an empty body. -/
def respFold (acc : Option Nat × List BodyTag) (e : HttpEvent) :
    Option Nat × List BodyTag :=
  match e with
  | .httpError s =>
    match acc.1 with
    | none => (some s, acc.2 ++ [.errorText])
    | some _ => (acc.1, acc.2 ++ [.errorText])
  | .writeHeader s =>
    match acc.1 with
    | none => (some s, acc.2)
    | some _ => acc
  | .write b =>
    match acc.1 with
    | none => (some 200, acc.2 ++ [b])
    | some _ => (acc.1, acc.2 ++ [b])
  | _ => acc

/-- Status code and body of the response produced by a trace. -/
def responseOf (tr : List HttpEvent) : Nat × List BodyTag :=
  let r := tr.foldl respFold (none, [])
  (r.1.getD 200, r.2)

/-- Whether an event is a response write operation (status header or
body write). -/
def isResponseWriteOp : HttpEvent → Bool
  | .httpError _ => true
  | .writeHeader _ => true
  | .write _ => true
  | _ => false

/-- Number of response write operations in a trace. -/
def responseWriteOps (tr : List HttpEvent) : Nat :=
  (tr.filter isResponseWriteOp).length

/-- Modelled from the spec: terminateCommandInteraction is called by
src/client.go line 249 but its body is not under src/.  The spec states
that an unknown command is answered with a fixed unknown-command payload
with an HTTP success status, in JSON like the other fixed payloads. -/
def terminateCommandInteraction : List HttpEvent :=
  [.headerAdd "Content-Type" "application/json", .write .unknownCommandBody]

/-- Expiry callback scheduled by CreateButtonMenu (src/client.go lines
55-60): delete every armed key (delete on the nil map is a no-op in Go)
and invoke the handler with nil, unconditionally. -/
def fireButtonTimer (c : client) (CustomIds : List String) (handlerId : Nat) :
    client × List HttpEvent :=
  let qb := match c.queuedButtons with
    | none => none
    | some m => some (mapDeleteKeys m CustomIds)
  ({ c with queuedButtons := qb }, [.callQueuedButtonHandler handlerId false])

/-- handleDiscordWebhookRequests from src/client.go lines 220-333.  The
request is abstracted by its method, the verdict of verifyRequest and the
result of decoding the body (none models a JSON decode failure).  The
returned client carries the updated queuedButtons map. -/
def client.handleDiscordWebhookRequests (c : client) (method : String)
    (verified : Bool) (parsed : Option Interaction) : List HttpEvent × client :=
  if method ≠ "POST" then
    ([.httpError 405], c)
  else if !verified then
    ([.verify, .httpError 401], c)
  else
    match parsed with
    | none => ([.verify, .parseBody, .httpError 400, .panicked "decode"], c)
    | some itx0 =>
      let pre : List HttpEvent := [.verify, .parseBody]
      if itx0.Typ = PING_TYPE then
        (pre ++ [.write .pingBody], c)
      else if itx0.Typ = APPLICATION_COMMAND_TYPE then
        let r := resolveCommand c.commands itx0
        let command := r.1
        let interaction := r.2.1
        if !r.2.2 then
          (pre ++ terminateCommandInteraction, c)
        else if interaction.GuildID = 0 ∧ !command.AvailableInDM then
          (pre ++ [.writeHeader 204], c)
        else
          match c.preCommandExecutionHandler with
          | some f =>
            match f interaction with
            | some content =>
              (pre ++ [.callPreCommandExecutionHandler,
                       .headerAdd "Content-Type" "application/json",
                       .write (.preHandlerBody content)], c)
            | none =>
              (pre ++ [.callPreCommandExecutionHandler, .writeHeader 204,
                       .callSlashCommandHandler interaction.Data.Name], c)
          | none =>
            (pre ++ [.writeHeader 204, .callSlashCommandHandler interaction.Data.Name], c)
      else if itx0.Typ = MESSAGE_COMPONENT_TYPE then
        if itx0.Data.ComponentType = COMPONENT_BUTTON then
          match (c.queuedButtons.getD []).lookup itx0.Data.CustomId with
          | some queue =>
            let c2 := { c with
              queuedButtons := some (mapDeleteKeys (c.queuedButtons.getD []) queue.CustomIds) }
            (pre ++ [.callQueuedButtonHandler queue.handlerId true]
                 ++ (if c.interactionHandler then [.callInteractionHandler] else [])
                 ++ [.writeHeader 204], c2)
          | none =>
            (pre ++ (if c.interactionHandler then [.callInteractionHandler] else [])
                 ++ [.writeHeader 204], c)
        else
          (pre ++ (if c.interactionHandler then [.callInteractionHandler] else []), c)
      else if itx0.Typ = APPLICATION_COMMAND_AUTO_COMPLETE_TYPE then
        let r := resolveCommand c.commands itx0
        let command := r.1
        let interaction := r.2.1
        if !r.2.2 ∨ !command.hasAutoCompleteHandler ∨ command.Options.length = 0 then
          (pre ++ [.writeHeader 204], c)
        else
          (pre ++ [.callAutoCompleteHandler interaction.Data.Name,
                   .headerAdd "Content-Type" "application/json",
                   .write .autocompleteBody], c)
      else
        (pre ++ (if c.interactionHandler then [.callInteractionHandler] else []), c)

/-- The Client struct used by src/unnamed/part_000: permanent component
and modal handler tables (value true means the stored function is not
nil), armed wait channels for components and modals (true meaning the
channel is not nil), the generic fallback handlers as presence flags and
the command middleware whose boolean result steers the dispatch. -/
structure Client where
  PublicKey : List Nat
  commands : List (String × List (String × Command))
  components : List (String × Bool)
  queuedComponents : List (String × Bool)
  modals : List (String × Bool)
  queuedModals : List (String × Bool)
  componentHandler : Bool
  modalHandler : Bool
  commandMiddlewareHandler : Option (Interaction → Bool)

/-- Outcome of reading and unmarshalling the request body in
src/unnamed/part_000: whether io.ReadAll succeeded, the extracted type
tag, and the results of unmarshalling the buffer as each interaction
shape (none models a sonnet.Unmarshal error). -/
structure InboundBody where
  readOk : Bool
  extractorTyp : Option Nat
  commandItx : Option Interaction
  componentItx : Option Interaction
  modalItx : Option Interaction

/-- Modelled from the spec: seekCommand is called by src/unnamed/part_000
but its body is not under src/; the spec says command resolution descends
one nested-subcommand level and then consults the registry keyed by root
name and subcommand-or-sentinel, exactly the semantics of getCommand in
src/client.go, so the shared resolveCommand is used. -/
def Client.seekCommand (c : Client) (interaction : Interaction) :
    Command × Interaction × Bool :=
  resolveCommand c.commands interaction

/-- handleRequest from src/unnamed/part_000 lines 11-162, over the same
request abstraction as handleDiscordWebhookRequests.  Note two
particulars of the source preserved here: the command branch writes the
204 status once after resolution and a second time on the DM rejection
path (lines 57-61), and the queued-modal delivery (lines 149-153) does
not return, falling through to the generic modal handler. -/
def Client.handleRequest (c : Client) (method : String) (verified : Bool)
    (body : InboundBody) : List HttpEvent :=
  if method ≠ "POST" then
    [.httpError 405]
  else if !verified then
    [.verify, .httpError 401]
  else if !body.readOk then
    [.verify, .httpError 400, .panicked "read"]
  else
    match body.extractorTyp with
    | none => [.verify, .parseBody, .httpError 400, .panicked "unmarshal"]
    | some t =>
      let pre : List HttpEvent := [.verify, .parseBody]
      if t = PING_TYPE then
        pre ++ [.headerAdd "Content-Type" "application/json", .write .pingBody]
      else if t = APPLICATION_COMMAND_TYPE then
        match body.commandItx with
        | none => pre ++ [.httpError 400, .panicked "unmarshal"]
        | some interaction =>
          let r := c.seekCommand interaction
          let command := r.1
          let itx := r.2.1
          if !r.2.2 then
            pre ++ [.headerAdd "Content-Type" "application/json", .write .unknownCommandBody]
          else if !command.AvailableInDM ∧ interaction.GuildID = 0 then
            pre ++ [.writeHeader 204, .writeHeader 204]
          else
            match c.commandMiddlewareHandler with
            | some mw =>
              if !mw itx then
                pre ++ [.writeHeader 204, .callMiddleware]
              else
                pre ++ [.writeHeader 204, .callMiddleware,
                        .callSlashCommandHandler itx.Data.Name]
            | none =>
              pre ++ [.writeHeader 204, .callSlashCommandHandler itx.Data.Name]
      else if t = MESSAGE_COMPONENT_TYPE then
        match body.componentItx with
        | none => pre ++ [.httpError 400, .panicked "unmarshal"]
        | some itx =>
          match c.components.lookup itx.Data.CustomId with
          | some true => pre ++ [.callComponentHandler itx.Data.CustomId]
          | _ =>
            match c.queuedComponents.lookup itx.Data.CustomId with
            | some true =>
              pre ++ [.headerAdd "Content-Type" "application/json", .write .ackBody,
                      .sendQueuedComponent itx.Data.CustomId]
            | _ =>
              if c.componentHandler then pre ++ [.callGenericComponentHandler] else pre
      else if t = APPLICATION_COMMAND_AUTO_COMPLETE_TYPE then
        match body.commandItx with
        | none => pre ++ [.httpError 400, .panicked "unmarshal"]
        | some interaction =>
          let r := c.seekCommand interaction
          let command := r.1
          let itx := r.2.1
          if !r.2.2 ∨ !command.hasAutoCompleteHandler ∨ command.Options.length = 0 then
            pre ++ [.writeHeader 204]
          else
            pre ++ [.callAutoCompleteHandler itx.Data.Name,
                    .headerAdd "Content-Type" "application/json", .write .autocompleteBody]
      else if t = MODAL_SUBMIT_INTERACTION_TYPE then
        match body.modalItx with
        | none => pre ++ [.httpError 400, .panicked "unmarshal"]
        | some itx =>
          match c.modals.lookup itx.Data.CustomId with
          | some true => pre ++ [.callModalHandler itx.Data.CustomId]
          | _ =>
            let delivered := match c.queuedModals.lookup itx.Data.CustomId with
              | some true =>
                [HttpEvent.headerAdd "Content-Type" "application/json",
                 HttpEvent.write .ackBody, HttpEvent.sendQueuedModal itx.Data.CustomId]
              | _ => []
            pre ++ delivered ++ (if c.modalHandler then [.callGenericModalHandler] else [])
      else
        pre

/-- Shared rate-limit state of the Rest struct (src/rest.go): the single
lockedTo deadline, a time.Time whose zero value 0 means not limited. -/
structure Rest where
  lockedTo : Nat
deriving DecidableEq, Repr

/-- Primitive effect performed by the Rest code: lock operations on the
shared mutex, stores to the shared lockedTo deadline, sleeps (absolute
deadline in seconds or relative delay in microseconds) and calls into
handleRequest by attempt index. -/
inductive RestEffect where
  | rLock
  | rUnlock
  | lock
  | unlock
  | setLockedTo (v : Nat)
  | sleepUntil (t : Nat)
  | sleepFor (micros : Nat)
  | callHandleRequest (attempt : Nat)
deriving DecidableEq, Repr

/-- Whether an effect stores to the shared deadline. -/
def RestEffect.isSetLockedTo : RestEffect → Bool
  | .setLockedTo _ => true
  | _ => false

/-- Whether an effect is a call into handleRequest. -/
def RestEffect.isCallHandleRequest : RestEffect → Bool
  | .callHandleRequest _ => true
  | _ => false

/-- State of the shared deadline after a list of effects. -/
def applyEffects (st : Rest) (l : List RestEffect) : Rest :=
  l.foldl (fun s e => match e with | .setLockedTo v => { lockedTo := v } | _ => s) st

/-- Moment at which the thread running the effects resumes, starting at
now: an absolute sleep moves the clock to its deadline (never backwards),
other effects take no time in this model. -/
def resumeAfter (now : Nat) (l : List RestEffect) : Nat :=
  l.foldl (fun t e => match e with | .sleepUntil u => max t u | _ => t) now

/-- The triple (raw, err, finished) returned by handleRequest in
src/rest.go. -/
structure HandleResult where
  raw : Option (List Nat)
  err : Option String
  finished : Bool

/-- Rate-limit prologue of Rest.Request (src/rest.go lines 29-36): under
the read lock, if the deadline is set, compute the time left and sleep it
out when positive.  The source releases the read lock only inside the
deadline-is-set branch; the trace reproduces that. -/
def Rest.requestWaitEffects (rest : Rest) (now : Nat) : List RestEffect :=
  if rest.lockedTo ≠ 0 then
    if 0 < (rest.lockedTo : Int) - (now : Int) then
      [.rLock, .rUnlock, .sleepUntil rest.lockedTo]
    else [.rLock, .rUnlock]
  else
    [.rLock]

/-- Retry loop of Rest.Request (src/rest.go lines 38-46), written with
explicit fuel: the source loop is for i starting at 1 while i < 3, so the
fuel is 3 - i, which is 2 at entry.  Each iteration calls handleRequest,
returns its result when finished, and otherwise sleeps 250*i
microseconds before the next attempt; when the loop exits, the terminal
failure naming the method and route is returned. -/
def requestLoop (handle : Nat → HandleResult) (method route : String) :
    Nat → Nat → List RestEffect →
    (Option (List Nat) × Option String) × List RestEffect
  | _, 0, effs =>
    ((none, some ("failed to make http request 3 times to " ++ method ++ " :: "
        ++ route ++ " (check internet connection and/or app credentials)")), effs)
  | i, fuel + 1, effs =>
    let r := handle i
    let effs := effs ++ [.callHandleRequest i]
    if r.finished then ((r.raw, r.err), effs)
    else requestLoop handle method route (i + 1) fuel (effs ++ [.sleepFor (250 * i)])

/-- Rest.Request from src/rest.go lines 28-47: the rate-limit prologue
followed by the bounded retry loop, the transport being abstracted as a
function from the attempt index to the handleRequest triple. -/
def Rest.Request (rest : Rest) (now : Nat) (handle : Nat → HandleResult)
    (method route : String) :
    (Option (List Nat) × Option String) × List RestEffect :=
  requestLoop handle method route 1 2 (rest.requestWaitEffects now)

/-- HTTP 429 branch of handleRequest (src/rest.go lines 99-113): under
the write lock, publish lockedTo as now plus the reported retry-after
seconds plus the fixed 5 second margin, sleep until that deadline, then
under the write lock clear the deadline back to the zero value, and
report an unfinished rate-limit outcome.  The returned state is the
interpretation of the emitted effects. -/
def Rest.handle429 (rest : Rest) (now : Nat) (retryAfter : Nat) :
    Rest × List RestEffect × HandleResult :=
  let timeLeft := now + (retryAfter + 5)
  let effs : List RestEffect :=
    [.lock, .setLockedTo timeLeft, .unlock,
     .sleepUntil timeLeft,
     .lock, .setLockedTo 0, .unlock]
  (applyEffects rest effs, effs, { raw := none, err := some "rate limit", finished := false })

/-- User struct (only fields needed to witness the zero value). -/
structure User where
  id : Nat
  username : String
deriving DecidableEq, Repr

/-- Zero value of the User struct. -/
def User.zero : User := { id := 0, username := "" }

/-- Member struct (only fields needed to witness the zero value). -/
structure Member where
  nick : String
  userId : Nat
deriving DecidableEq, Repr

/-- Zero value of the Member struct. -/
def Member.zero : Member := { nick := "", userId := 0 }

/-- FetchUser from src/client.go lines 118-131.  The REST transport and
the JSON unmarshaller are abstracted as oracles.  The body keeps the
shape of the source: the result of json.Unmarshal is discarded (on
failure res keeps its zero value), and the following err check re-reads
the error of the request, which is necessarily nil on this path, so the
parse-failure return is unreachable. -/
def FetchUser (request : String → String → Except String (List Nat))
    (unmarshalUser : List Nat → Option User) (id : Nat) : Except String User :=
  match request "GET" ("/users/" ++ toString id) with
  | .error err => .error err
  | .ok raw =>
    let err : Option String := none
    let res : User := (unmarshalUser raw).getD User.zero
    match err with
    | some _ => .error "failed to parse received data from discord"
    | none => .ok res

/-- FetchMember from src/client.go lines 133-146, with the same stale
err check as FetchUser. -/
def FetchMember (request : String → String → Except String (List Nat))
    (unmarshalMember : List Nat → Option Member) (guildId memberId : Nat) :
    Except String Member :=
  match request "GET" ("/guilds/" ++ toString guildId ++ "/members/" ++ toString memberId) with
  | .error err => .error err
  | .ok raw =>
    let err : Option String := none
    let res : Member := (unmarshalMember raw).getD Member.zero
    match err with
    | some _ => .error "failed to parse received data from discord"
    | none => .ok res

/-- Whether an event is the pre-command-execution hook being invoked. -/
def isPreHandlerCall : HttpEvent → Bool
  | .callPreCommandExecutionHandler => true
  | _ => false

/-- Number of pre-command-execution hook invocations in a trace. -/
def countPreHandlerCalls (tr : List HttpEvent) : Nat :=
  (tr.filter isPreHandlerCall).length

/-- Whether an event is a slash command handler invocation. -/
def isSlashHandlerCall : HttpEvent → Bool
  | .callSlashCommandHandler _ => true
  | _ => false

/-- Number of slash command handler invocations in a trace. -/
def countSlashHandlerCalls (tr : List HttpEvent) : Nat :=
  (tr.filter isSlashHandlerCall).length

/-- Whether an event is the command middleware being invoked. -/
def isMiddlewareCall : HttpEvent → Bool
  | .callMiddleware => true
  | _ => false

/-- Number of command middleware invocations in a trace. -/
def countMiddlewareCalls (tr : List HttpEvent) : Nat :=
  (tr.filter isMiddlewareCall).length

/-- Whether an event is the button wait-queue handler being invoked
(either with a delivered event or with the nil timeout sentinel). -/
def isQueuedButtonHandlerCall : HttpEvent → Bool
  | .callQueuedButtonHandler _ _ => true
  | _ => false

/-- The button wait-queue handler invocations of a trace, in order. -/
def buttonHandlerCalls (tr : List HttpEvent) : List HttpEvent :=
  tr.filter isQueuedButtonHandlerCall

/-- Whether an event is one of the tiered component or modal handler
deliveries of the dispatcher of src/unnamed/part_000: a permanent
handler, a wait-queue delivery, or the generic fallback. -/
def isTierHandlerInvocation : HttpEvent → Bool
  | .callComponentHandler _ => true
  | .sendQueuedComponent _ => true
  | .callGenericComponentHandler => true
  | .callModalHandler _ => true
  | .sendQueuedModal _ => true
  | .callGenericModalHandler => true
  | _ => false

/-- Number of tiered handler deliveries in a trace. -/
def countTierHandlerInvocations (tr : List HttpEvent) : Nat :=
  (tr.filter isTierHandlerInvocation).length

/-- Response classifier: a 200 status carrying a nonempty all-JSON body. -/
def spec200Json (r : Nat × List BodyTag) : Bool :=
  r.1 == 200 && !r.2.isEmpty && r.2.all BodyTag.isJsonBody

/-- Response classifier: a 204 status with an empty body. -/
def spec204Empty (r : Nat × List BodyTag) : Bool :=
  r.1 == 204 && r.2.isEmpty

/-- Whether an Except value is the ok outcome. -/
def exceptIsOk {ε α : Type} : Except ε α → Bool
  | .ok _ => true
  | .error _ => false

/-- A button component interaction carrying the given custom id. -/
def buttonEventItx (key : String) : Interaction :=
  { Typ := MESSAGE_COMPONENT_TYPE
    GuildID := 0
    Data := { Name := "", CustomId := key, ComponentType := COMPONENT_BUTTON, Options := [] } }

/-- A client whose button queue map is initialized and empty, used to
exercise the arming, delivery and expiry cycle of CreateButtonMenu. -/
def c1Base : client :=
  { ApplicationId := 1
    PublicKey := []
    commands := []
    queuedButtons := some []
    interactionHandler := false
    preCommandExecutionHandler := none
    running := false }

/-- Trace of the scenario of claim C1: arm the single key btn1 with a 2
second timeout and handler 7, deliver a matching button event before the
timeout, then let the scheduled timer fire at the timeout. -/
def c1ScenarioTrace : List HttpEvent :=
  match c1Base.CreateButtonMenu ["btn1"] 2 7 with
  | .error _ => []
  | .ok (c1, timer) =>
    let d := c1.handleDiscordWebhookRequests "POST" true (some (buttonEventItx "btn1"))
    let f := fireButtonTimer d.2 timer.CustomIds timer.handlerId
    d.1 ++ f.2

/-- Transport for claim C2: handleRequest reports an unfinished outcome
on attempts 1 and 2 and a finished success on attempt 3. -/
def c2Transport : Nat → HandleResult := fun i =>
  if 3 ≤ i then { raw := some [111, 107], err := none, finished := true }
  else { raw := none, err := some "transport failure", finished := false }

/-- Rest.Request run against c2Transport from an unlimited state. -/
def c2Run : (Option (List Nat) × Option String) × List RestEffect :=
  Rest.Request { lockedTo := 0 } 0 c2Transport "GET" "/gateway"

/-- Client of src/unnamed/part_000 with the modal key m1 armed in the
wait queue and a generic modal handler registered. -/
def c3Client : Client :=
  { PublicKey := []
    commands := []
    components := []
    queuedComponents := []
    modals := []
    queuedModals := [("m1", true)]
    componentHandler := false
    modalHandler := true
    commandMiddlewareHandler := none }

/-- Inbound body carrying a modal submission for the given custom id. -/
def modalEventBody (key : String) : InboundBody :=
  { readOk := true
    extractorTyp := some MODAL_SUBMIT_INTERACTION_TYPE
    commandItx := none
    componentItx := none
    modalItx := some
      { Typ := MODAL_SUBMIT_INTERACTION_TYPE
        GuildID := 0
        Data := { Name := "", CustomId := key, ComponentType := 0, Options := [] } } }

/-- Dispatch trace of the armed modal submission of claim C3. -/
def c3Trace : List HttpEvent :=
  c3Client.handleRequest "POST" true (modalEventBody "m1")

/-- Client of src/unnamed/part_000 with one registered root command that
is not available in DM. -/
def c4Client : Client :=
  { PublicKey := []
    commands := [("cmd", [("-",
      { Name := "cmd", AvailableInDM := false, Options := [], hasAutoCompleteHandler := false })])]
    components := []
    queuedComponents := []
    modals := []
    queuedModals := []
    componentHandler := false
    modalHandler := false
    commandMiddlewareHandler := none }

/-- Inbound body invoking the command cmd from a DM context (no guild). -/
def c4Body : InboundBody :=
  { readOk := true
    extractorTyp := some APPLICATION_COMMAND_TYPE
    commandItx := some
      { Typ := APPLICATION_COMMAND_TYPE
        GuildID := 0
        Data := { Name := "cmd", CustomId := "", ComponentType := 0, Options := [] } }
    componentItx := none
    modalItx := none }

/-- Dispatch trace of the DM-rejected command of claim C4. -/
def c4Trace : List HttpEvent :=
  c4Client.handleRequest "POST" true c4Body

/-- A command that is not available in DM, for the C6 witness. -/
def c6cmd : Command :=
  { Name := "dmcmd", AvailableInDM := false, Options := [], hasAutoCompleteHandler := false }

/-- Client of src/client.go with the command dmcmd registered and a spy
pre-command handler installed. -/
def c6ClientGo : client :=
  { ApplicationId := 1
    PublicKey := []
    commands := [("dmcmd", [("-", c6cmd)])]
    queuedButtons := none
    interactionHandler := false
    preCommandExecutionHandler := some (fun _ => some "pre")
    running := false }

/-- Invocation of dmcmd with no guild context. -/
def c6Itx : Interaction :=
  { Typ := APPLICATION_COMMAND_TYPE
    GuildID := 0
    Data := { Name := "dmcmd", CustomId := "", ComponentType := 0, Options := [] } }

/-- Client of src/unnamed/part_000 with the command dmcmd registered and
a spy middleware installed. -/
def c6ClientP : Client :=
  { PublicKey := []
    commands := [("dmcmd", [("-", c6cmd)])]
    components := []
    queuedComponents := []
    modals := []
    queuedModals := []
    componentHandler := false
    modalHandler := false
    commandMiddlewareHandler := some (fun _ => true) }

/-- Inbound body invoking dmcmd with no guild context. -/
def c6BodyP : InboundBody :=
  { readOk := true
    extractorTyp := some APPLICATION_COMMAND_TYPE
    commandItx := some c6Itx
    componentItx := none
    modalItx := none }

/-- Client of src/client.go with no handlers registered at all. -/
def c7client : client :=
  { ApplicationId := 1
    PublicKey := []
    commands := []
    queuedButtons := none
    interactionHandler := false
    preCommandExecutionHandler := none
    running := false }

/-- A select-menu component interaction (component type 3, not a
button). -/
def c7Itx : Interaction :=
  { Typ := MESSAGE_COMPONENT_TYPE
    GuildID := 0
    Data := { Name := "", CustomId := "sel1", ComponentType := 3, Options := [] } }

/-- Dispatch trace of the select-menu interaction of claim C7. -/
def c7CexTrace : List HttpEvent :=
  (c7client.handleDiscordWebhookRequests "POST" true (some c7Itx)).1

/-- A root command used by the C8 witness. -/
def c8cmd : Command :=
  { Name := "cmd8", AvailableInDM := true, Options := [], hasAutoCompleteHandler := false }

/-- Client options supplying a pre-command-execution handler, for the C8
witness. -/
def c8opts : ClientOptions :=
  { ApplicationId := 9
    PublicKey := "00"
    InteractionHandler := false
    PreCommandExecutionHandler := some (fun _ => some "hi") }

/-- The client CreateClient builds from c8opts. -/
def c8client0 : client :=
  { ApplicationId := 9
    PublicKey := [0]
    commands := []
    queuedButtons := none
    interactionHandler := false
    preCommandExecutionHandler := none
    running := false }

/-- Startup registrations performed on c8client0. -/
def c8regs : List RegAction := [.root c8cmd]

/-- The client after the registrations of c8regs. -/
def c8client1 : client :=
  { c8client0 with commands := [("cmd8", [("-", c8cmd)])] }

/-- Invocation of cmd8 from a guild context. -/
def c8Itx : Interaction :=
  { Typ := APPLICATION_COMMAND_TYPE
    GuildID := 77
    Data := { Name := "cmd8", CustomId := "", ComponentType := 0, Options := [] } }

/-- Client options with a valid public key, for the C9 theorems. -/
def c9opts : ClientOptions :=
  { ApplicationId := 5
    PublicKey := "ab"
    InteractionHandler := false
    PreCommandExecutionHandler := none }

/-- The client CreateClient builds from c9opts: its queuedButtons map is
the nil map. -/
def c9client : client :=
  { ApplicationId := 5
    PublicKey := [171]
    commands := []
    queuedButtons := none
    interactionHandler := false
    preCommandExecutionHandler := none
    running := false }

/-- REST oracle answering every request with a fixed success body, for
the C10 witness. -/
def c10request : String → String → Except String (List Nat) :=
  fun _ _ => .ok [1, 2, 3]

/-- Unmarshal oracle that fails on every body (malformed success body). -/
def c10unmarshalUser : List Nat → Option User := fun _ => none

/-- Unmarshal oracle that fails on every body (malformed success body). -/
def c10unmarshalMember : List Nat → Option Member := fun _ => none

/-- Claim C1 (code bug): arming a wait via CreateButtonMenu and
delivering a matching button event before the timeout does not make the
scheduled expiry a no-op: the timer callback still invokes the handler
with the nil timeout sentinel, so the handler of one arming fires twice
(once with the delivered event, once with nil) instead of exactly
once. -/
theorem c1_button_wait_handler_fires_twice :
    buttonHandlerCalls c1ScenarioTrace =
      [.callQueuedButtonHandler 7 true, .callQueuedButtonHandler 7 false]
    ∧ (buttonHandlerCalls c1ScenarioTrace).length = 2 := by
  decide

/-- Claim C2 (code bug): against a transport that is unfinished on
attempts 1 and 2 and would succeed on attempt 3, Rest.Request makes only
two handleRequest calls and returns the terminal failure (whose own text
says 3 times), because the loop runs for i from 1 while i is less than
3. -/
theorem c2_request_gives_up_after_two_attempts :
    c2Run.1 = (none, some ("failed to make http request 3 times to GET :: /gateway"
        ++ " (check internet connection and/or app credentials)"))
    ∧ c2Run.2.filter RestEffect.isCallHandleRequest =
        [.callHandleRequest 1, .callHandleRequest 2]
    ∧ (c2Run.2.filter RestEffect.isCallHandleRequest).length = 2 := by
  decide

/-- Claim C3 (code bug): a modal submission whose custom id is armed in
the modal wait queue, on a client that also has a generic modal handler
registered, is delivered to the armed waiter and then also to the
generic fallback (the queued-modal branch of src/unnamed/part_000 does
not return), so two tiered handlers are invoked instead of exactly
one. -/
theorem c3_armed_modal_also_invokes_generic_handler :
    c3Trace = [.verify, .parseBody, .headerAdd "Content-Type" "application/json",
               .write .ackBody, .sendQueuedModal "m1", .callGenericModalHandler]
    ∧ countTierHandlerInvocations c3Trace = 2 := by
  decide

/-- Claim C4 (code bug): dispatching a resolved command that is not
DM-available from a DM context makes the handler of src/unnamed/part_000
write the response status twice (the unconditional 204 after resolution
and the 204 of the DM rejection), so this code path performs two
response writes instead of exactly one. -/
theorem c4_dm_rejected_command_writes_twice :
    c4Trace = [.verify, .parseBody, .writeHeader 204, .writeHeader 204]
    ∧ responseWriteOps c4Trace = 2 := by
  decide

/-- The rate-limit prologue of Rest.Request never stores to the shared
deadline. -/
lemma requestWaitEffects_no_setLockedTo (rest : Rest) (now : Nat) :
    ∀ e ∈ rest.requestWaitEffects now, e.isSetLockedTo = false := by
  intro e he
  unfold Rest.requestWaitEffects at he
  split at he
  · split at he
    · simp at he
      rcases he with rfl | rfl | rfl <;> rfl
    · simp at he
      rcases he with rfl | rfl <;> rfl
  · simp at he
    subst he
    rfl

/-- The retry loop of Rest.Request only appends handleRequest calls and
relative sleeps to the effect list: it never stores to the shared
deadline. -/
lemma requestLoop_no_setLockedTo (handle : Nat → HandleResult) (method route : String) :
    ∀ (fuel i : Nat) (effs : List RestEffect),
      (∀ e ∈ effs, e.isSetLockedTo = false) →
      ∀ e ∈ (requestLoop handle method route i fuel effs).2, e.isSetLockedTo = false := by
  intro fuel
  induction fuel with
  | zero =>
    intro i effs h e he
    simp only [requestLoop] at he
    exact h e he
  | succ n ih =>
    intro i effs h e he
    simp only [requestLoop] at he
    split at he
    · simp at he
      rcases he with h1 | h1
      · exact h e h1
      · subst h1; rfl
    · refine ih (i + 1) _ ?_ e he
      intro e' he'
      simp at he'
      rcases he' with h1 | h1 | h1
      · exact h e' h1
      · subst h1; rfl
      · subst h1; rfl

/-- Claim C5: the HTTP 429 branch of handleRequest publishes, under the
write lock, the shared deadline now + retryAfter + 5 (the fixed safety
margin), sleeps until exactly that deadline itself, and then clears the
deadline back to the zero unset value under the lock; and a Request that
starts while the deadline is set and in the future sleeps until exactly
that deadline, and no part of Request ever stores to the deadline. -/
theorem c5_rate_limiter_lockout_behaviour :
    (∀ (rest : Rest) (now retryAfter : Nat),
      (Rest.handle429 rest now retryAfter).2.1 =
        [.lock, .setLockedTo (now + retryAfter + 5), .unlock,
         .sleepUntil (now + retryAfter + 5), .lock, .setLockedTo 0, .unlock]
      ∧ (applyEffects rest ((Rest.handle429 rest now retryAfter).2.1.take 3)).lockedTo
          = now + retryAfter + 5
      ∧ resumeAfter now (Rest.handle429 rest now retryAfter).2.1 = now + retryAfter + 5
      ∧ (Rest.handle429 rest now retryAfter).1.lockedTo = 0
      ∧ (Rest.handle429 rest now retryAfter).2.2.finished = false)
    ∧ (∀ (rest : Rest) (now : Nat), rest.lockedTo ≠ 0 → (now : Int) < (rest.lockedTo : Int) →
        resumeAfter now (rest.requestWaitEffects now) = rest.lockedTo
        ∧ ∀ e ∈ rest.requestWaitEffects now, e.isSetLockedTo = false)
    ∧ (∀ (rest : Rest) (now : Nat) (handle : Nat → HandleResult) (method route : String),
        ∀ e ∈ (Rest.Request rest now handle method route).2, e.isSetLockedTo = false) := by
  refine ⟨?_, ?_, ?_⟩
  · intro rest now retryAfter
    refine ⟨?_, ?_, ?_, ?_, ?_⟩
    · simp [Rest.handle429, Nat.add_assoc]
    · simp [Rest.handle429, applyEffects, Nat.add_assoc]
    · have h1 : resumeAfter now (Rest.handle429 rest now retryAfter).2.1
          = max now (now + (retryAfter + 5)) := by
        simp [Rest.handle429, resumeAfter]
      omega
    · simp [Rest.handle429, applyEffects]
    · simp [Rest.handle429]
  · intro rest now hnz hlt
    constructor
    · have hle : now < rest.lockedTo := by exact_mod_cast hlt
      unfold Rest.requestWaitEffects
      rw [if_pos hnz, if_pos (by omega : (0 : Int) < (rest.lockedTo : Int) - (now : Int))]
      have h2 : resumeAfter now
          [.rLock, .rUnlock, .sleepUntil rest.lockedTo] = max now rest.lockedTo := by
        simp [resumeAfter]
      omega
    · exact requestWaitEffects_no_setLockedTo rest now
  · intro rest now handle method route
    exact requestLoop_no_setLockedTo handle method route 2 1 _
      (requestWaitEffects_no_setLockedTo rest now)

/-- Witness for claim C5 at concrete inputs: a 429 with retryAfter 7 at
time 100 publishes deadline 112 and ends unset, and a Request starting
at time 3 under a deadline of 10 resumes exactly at 10. -/
theorem c5_rate_limiter_lockout_witness :
    (applyEffects { lockedTo := 0 }
        ((Rest.handle429 { lockedTo := 0 } 100 7).2.1.take 3)).lockedTo = 112
    ∧ (Rest.handle429 { lockedTo := 0 } 100 7).1.lockedTo = 0
    ∧ resumeAfter 3 (Rest.requestWaitEffects { lockedTo := 10 } 3) = 10 :=
  ⟨(c5_rate_limiter_lockout_behaviour.1 { lockedTo := 0 } 100 7).2.1,
   (c5_rate_limiter_lockout_behaviour.1 { lockedTo := 0 } 100 7).2.2.2.1,
   (c5_rate_limiter_lockout_behaviour.2.1 { lockedTo := 10 } 3 (by decide) (by decide)).1⟩

/-- Claim C6: a resolved command that is not DM-available, invoked with
no guild context, is answered 204 with an empty body while neither the
pre-handler (middleware) nor the command handler is invoked, in both
dispatchers; and in the dispatcher of src/client.go the pre-handler can
only ever run when the command resolved and the DM rejection condition
does not hold, i.e. the DM check is evaluated strictly before the
pre-handler. -/
theorem c6_dm_check_blocks_prehandler :
    (∀ (c : client) (itx : Interaction),
      itx.Typ = APPLICATION_COMMAND_TYPE →
      (resolveCommand c.commands itx).2.2 = true →
      (resolveCommand c.commands itx).1.AvailableInDM = false →
      (resolveCommand c.commands itx).2.1.GuildID = 0 →
      responseOf (c.handleDiscordWebhookRequests "POST" true (some itx)).1 = (204, [])
      ∧ countPreHandlerCalls (c.handleDiscordWebhookRequests "POST" true (some itx)).1 = 0
      ∧ countSlashHandlerCalls (c.handleDiscordWebhookRequests "POST" true (some itx)).1 = 0)
    ∧ (∀ (c : client) (itx : Interaction),
      itx.Typ = APPLICATION_COMMAND_TYPE →
      countPreHandlerCalls (c.handleDiscordWebhookRequests "POST" true (some itx)).1 ≠ 0 →
      (resolveCommand c.commands itx).2.2 = true
      ∧ ((resolveCommand c.commands itx).2.1.GuildID ≠ 0
         ∨ (resolveCommand c.commands itx).1.AvailableInDM = true))
    ∧ (∀ (c : Client) (b : InboundBody) (itx : Interaction),
      b.readOk = true →
      b.extractorTyp = some APPLICATION_COMMAND_TYPE →
      b.commandItx = some itx →
      (resolveCommand c.commands itx).2.2 = true →
      (resolveCommand c.commands itx).1.AvailableInDM = false →
      itx.GuildID = 0 →
      responseOf (c.handleRequest "POST" true b) = (204, [])
      ∧ countMiddlewareCalls (c.handleRequest "POST" true b) = 0
      ∧ countSlashHandlerCalls (c.handleRequest "POST" true b) = 0) := by
  refine ⟨?_, ?_, ?_⟩
  · intro c itx htyp hok hdm hg
    have htr : (c.handleDiscordWebhookRequests "POST" true (some itx)).1 =
        [.verify, .parseBody, .writeHeader 204] := by
      simp [client.handleDiscordWebhookRequests, htyp, hok, hdm, hg,
        APPLICATION_COMMAND_TYPE, PING_TYPE]
    refine ⟨?_, ?_, ?_⟩ <;> rw [htr] <;> decide
  · intro c itx htyp hpre
    by_cases hok : (resolveCommand c.commands itx).2.2 = true
    · by_cases hg : (resolveCommand c.commands itx).2.1.GuildID = 0
          ∧ (resolveCommand c.commands itx).1.AvailableInDM = false
      · exfalso
        apply hpre
        simp [client.handleDiscordWebhookRequests, htyp, hok, hg.1, hg.2,
          APPLICATION_COMMAND_TYPE, PING_TYPE, countPreHandlerCalls, isPreHandlerCall]
      · push_neg at hg
        by_cases hgg : (resolveCommand c.commands itx).2.1.GuildID = 0
        · have hdm := hg hgg
          have hdm2 : (resolveCommand c.commands itx).1.AvailableInDM = true := by
            cases h : (resolveCommand c.commands itx).1.AvailableInDM
            · exact absurd h hdm
            · rfl
          exact ⟨hok, Or.inr hdm2⟩
        · exact ⟨hok, Or.inl hgg⟩
    · exfalso
      apply hpre
      rw [Bool.not_eq_true] at hok
      simp [client.handleDiscordWebhookRequests, htyp, hok,
        APPLICATION_COMMAND_TYPE, PING_TYPE, terminateCommandInteraction,
        countPreHandlerCalls, isPreHandlerCall]
  · intro c b itx hread hex hcmd hok hdm hg
    have htr : c.handleRequest "POST" true b =
        [.verify, .parseBody, .writeHeader 204, .writeHeader 204] := by
      simp [Client.handleRequest, hread, hex, hcmd, Client.seekCommand, hok, hdm, hg,
        APPLICATION_COMMAND_TYPE, PING_TYPE]
    refine ⟨?_, ?_, ?_⟩ <;> rw [htr] <;> decide

/-- Witness for claim C6: the non-DM command dmcmd invoked without a
guild yields a 204 empty response and the spy pre-handler (middleware)
records zero calls, in both dispatchers. -/
theorem c6_dm_check_blocks_prehandler_witness :
    (responseOf (c6ClientGo.handleDiscordWebhookRequests "POST" true (some c6Itx)).1 = (204, [])
      ∧ countPreHandlerCalls
          (c6ClientGo.handleDiscordWebhookRequests "POST" true (some c6Itx)).1 = 0
      ∧ countSlashHandlerCalls
          (c6ClientGo.handleDiscordWebhookRequests "POST" true (some c6Itx)).1 = 0)
    ∧ (responseOf (c6ClientP.handleRequest "POST" true c6BodyP) = (204, [])
      ∧ countMiddlewareCalls (c6ClientP.handleRequest "POST" true c6BodyP) = 0
      ∧ countSlashHandlerCalls (c6ClientP.handleRequest "POST" true c6BodyP) = 0) :=
  ⟨c6_dm_check_blocks_prehandler.1 c6ClientGo c6Itx rfl (by decide) (by decide) (by decide),
   c6_dm_check_blocks_prehandler.2.2 c6ClientP c6BodyP c6Itx rfl rfl rfl
     (by decide) (by decide) (by decide)⟩

@[simp] lemma ac_ne_ping : ¬(APPLICATION_COMMAND_TYPE = PING_TYPE) := by decide

@[simp] lemma mc_ne_ping : ¬(MESSAGE_COMPONENT_TYPE = PING_TYPE) := by decide

@[simp] lemma mc_ne_ac : ¬(MESSAGE_COMPONENT_TYPE = APPLICATION_COMMAND_TYPE) := by decide

@[simp] lemma auto_ne_ping : ¬(APPLICATION_COMMAND_AUTO_COMPLETE_TYPE = PING_TYPE) := by decide

@[simp] lemma auto_ne_ac : ¬(APPLICATION_COMMAND_AUTO_COMPLETE_TYPE = APPLICATION_COMMAND_TYPE) := by decide

@[simp] lemma auto_ne_mc : ¬(APPLICATION_COMMAND_AUTO_COMPLETE_TYPE = MESSAGE_COMPONENT_TYPE) := by decide

@[simp] lemma modal_ne_ping : ¬(MODAL_SUBMIT_INTERACTION_TYPE = PING_TYPE) := by decide

@[simp] lemma modal_ne_ac : ¬(MODAL_SUBMIT_INTERACTION_TYPE = APPLICATION_COMMAND_TYPE) := by decide

@[simp] lemma modal_ne_mc : ¬(MODAL_SUBMIT_INTERACTION_TYPE = MESSAGE_COMPONENT_TYPE) := by decide

@[simp] lemma modal_ne_auto : ¬(MODAL_SUBMIT_INTERACTION_TYPE = APPLICATION_COMMAND_AUTO_COMPLETE_TYPE) := by decide

/-- Claim C7 counterexample: a successfully verified and parsed
select-menu component interaction (component type 3) on a client with no
registered handlers is dispatched without any response write, so the
transport default 200 with an empty body goes out, which is neither a
200 with a JSON body nor a 204 with an empty body, refuting the claim
that successful dispatch always returns one of those two. -/
theorem c7_counterexample_success_response_not_json_or_204 :
    responseOf c7CexTrace = (200, [])
    ∧ spec200Json (responseOf c7CexTrace) = false
    ∧ spec204Empty (responseOf c7CexTrace) = false := by
  decide

/-- Claim C7 as amended: both dispatchers return 405 for every non-POST
request without verifying or parsing, 401 for every request failing
verification without parsing the body, 400 for every unreadable or
unparseable body, and on successful dispatch the response the dispatcher
itself writes is always a 200 with a JSON body or a 204 with an empty
body; branches that delegate the response to a registered handler, or
match nothing, write no response at all (the transport then defaults to
200 with an empty body), and in the dispatcher of src/unnamed/part_000 a
branch whose specific unmarshal fails yields 400. -/
theorem c7_response_codes_amended :
    (∀ (c : client) (method : String) (verified : Bool) (parsed : Option Interaction),
      method ≠ "POST" →
      (c.handleDiscordWebhookRequests method verified parsed).1 = [.httpError 405])
    ∧ (∀ (c : client) (parsed : Option Interaction),
      (c.handleDiscordWebhookRequests "POST" false parsed).1 = [.verify, .httpError 401])
    ∧ (∀ (c : client),
      (c.handleDiscordWebhookRequests "POST" true none).1 =
        [.verify, .parseBody, .httpError 400, .panicked "decode"])
    ∧ (∀ (c : client) (itx : Interaction),
      spec200Json (responseOf (c.handleDiscordWebhookRequests "POST" true (some itx)).1) = true
      ∨ spec204Empty (responseOf (c.handleDiscordWebhookRequests "POST" true (some itx)).1) = true
      ∨ responseWriteOps (c.handleDiscordWebhookRequests "POST" true (some itx)).1 = 0)
    ∧ (∀ (c : Client) (method : String) (verified : Bool) (b : InboundBody),
      method ≠ "POST" → c.handleRequest method verified b = [.httpError 405])
    ∧ (∀ (c : Client) (b : InboundBody),
      c.handleRequest "POST" false b = [.verify, .httpError 401])
    ∧ (∀ (c : Client) (b : InboundBody),
      (b.readOk = false →
        c.handleRequest "POST" true b = [.verify, .httpError 400, .panicked "read"])
      ∧ (b.readOk = true → b.extractorTyp = none →
        c.handleRequest "POST" true b =
          [.verify, .parseBody, .httpError 400, .panicked "unmarshal"]))
    ∧ (∀ (c : Client) (b : InboundBody) (t : Nat),
      b.readOk = true → b.extractorTyp = some t →
      spec200Json (responseOf (c.handleRequest "POST" true b)) = true
      ∨ spec204Empty (responseOf (c.handleRequest "POST" true b)) = true
      ∨ responseWriteOps (c.handleRequest "POST" true b) = 0
      ∨ (responseOf (c.handleRequest "POST" true b)).1 = 400) := by
  refine ⟨?_, ?_, ?_, ?_, ?_, ?_, ?_, ?_⟩
  · intro c method verified parsed h
    simp [client.handleDiscordWebhookRequests, h]
  · intro c parsed
    simp [client.handleDiscordWebhookRequests]
  · intro c
    simp [client.handleDiscordWebhookRequests]
  · intro c itx
    by_cases h1 : itx.Typ = PING_TYPE
    · simp [client.handleDiscordWebhookRequests, h1, responseOf, respFold,
        spec200Json, spec204Empty, responseWriteOps, isResponseWriteOp, BodyTag.isJsonBody]
    · by_cases h2 : itx.Typ = APPLICATION_COMMAND_TYPE
      · by_cases hok : (resolveCommand c.commands itx).2.2 = true
        · by_cases hdm : (resolveCommand c.commands itx).2.1.GuildID = 0
              ∧ (resolveCommand c.commands itx).1.AvailableInDM = false
          · simp [client.handleDiscordWebhookRequests, h1, h2, hok, hdm.1, hdm.2,
              responseOf, respFold,
              spec200Json, spec204Empty, responseWriteOps, isResponseWriteOp]
          · rcases hpre : c.preCommandExecutionHandler with _ | f
            · simp [client.handleDiscordWebhookRequests, h1, h2, hok, hdm, hpre,
                responseOf, respFold,
                spec200Json, spec204Empty, responseWriteOps, isResponseWriteOp]
            · rcases hc : f (resolveCommand c.commands itx).2.1 with _ | content
              · simp [client.handleDiscordWebhookRequests, h1, h2, hok, hdm, hpre, hc,
                  responseOf, respFold,
                  spec200Json, spec204Empty, responseWriteOps, isResponseWriteOp]
              · simp [client.handleDiscordWebhookRequests, h1, h2, hok, hdm, hpre, hc,
                  responseOf, respFold,
                  spec200Json, spec204Empty, responseWriteOps, isResponseWriteOp,
                  BodyTag.isJsonBody]
        · rw [Bool.not_eq_true] at hok
          simp [client.handleDiscordWebhookRequests, h1, h2, hok, terminateCommandInteraction,
            responseOf, respFold,
            spec200Json, spec204Empty, responseWriteOps, isResponseWriteOp, BodyTag.isJsonBody]
      · by_cases h3 : itx.Typ = MESSAGE_COMPONENT_TYPE
        · by_cases hb : itx.Data.ComponentType = COMPONENT_BUTTON
          · rcases hq : ((c.queuedButtons.getD []).lookup itx.Data.CustomId) with _ | queue
              <;> by_cases hih : c.interactionHandler
              <;> simp [client.handleDiscordWebhookRequests, h1, h2, h3, hb, hq, hih,
                    responseOf, respFold,
                    spec200Json, spec204Empty, responseWriteOps, isResponseWriteOp]
          · by_cases hih : c.interactionHandler
              <;> simp [client.handleDiscordWebhookRequests, h1, h2, h3, hb, hih,
                    responseOf, respFold,
                    spec200Json, spec204Empty, responseWriteOps, isResponseWriteOp]
        · by_cases h4 : itx.Typ = APPLICATION_COMMAND_AUTO_COMPLETE_TYPE
          · by_cases hok : (resolveCommand c.commands itx).2.2 = true
            · by_cases hauto : (resolveCommand c.commands itx).1.hasAutoCompleteHandler = true
              · by_cases hlen : (resolveCommand c.commands itx).1.Options.length = 0
                  <;> simp [client.handleDiscordWebhookRequests, h1, h2, h3, h4, hok, hauto,
                        hlen, responseOf, respFold,
                        spec200Json, spec204Empty, responseWriteOps, isResponseWriteOp,
                        BodyTag.isJsonBody]
              · rw [Bool.not_eq_true] at hauto
                simp [client.handleDiscordWebhookRequests, h1, h2, h3, h4, hok, hauto,
                  responseOf, respFold,
                  spec200Json, spec204Empty, responseWriteOps, isResponseWriteOp]
            · rw [Bool.not_eq_true] at hok
              simp [client.handleDiscordWebhookRequests, h1, h2, h3, h4, hok,
                responseOf, respFold,
                spec200Json, spec204Empty, responseWriteOps, isResponseWriteOp]
          · by_cases hih : c.interactionHandler
              <;> simp [client.handleDiscordWebhookRequests, h1, h2, h3, h4, hih,
                    responseOf, respFold,
                    spec200Json, spec204Empty, responseWriteOps, isResponseWriteOp]
  · intro c method verified b h
    simp [Client.handleRequest, h]
  · intro c b
    simp [Client.handleRequest]
  · intro c b
    constructor
    · intro h
      simp [Client.handleRequest, h]
    · intro h1 h2
      simp [Client.handleRequest, h1, h2]
  · intro c b t hread hex
    by_cases h1 : t = PING_TYPE
    · simp [Client.handleRequest, hread, hex, h1, responseOf, respFold,
        spec200Json, spec204Empty, responseWriteOps, isResponseWriteOp, BodyTag.isJsonBody]
    · by_cases h2 : t = APPLICATION_COMMAND_TYPE
      · rcases hcmd : b.commandItx with _ | itx
        · simp [Client.handleRequest, hread, hex, h1, h2, hcmd, responseOf, respFold,
            spec200Json, spec204Empty, responseWriteOps, isResponseWriteOp]
        · by_cases hok : (resolveCommand c.commands itx).2.2 = true
          · by_cases hdm : (resolveCommand c.commands itx).1.AvailableInDM = false
                ∧ itx.GuildID = 0
            · simp [Client.handleRequest, Client.seekCommand, hread, hex, h1, h2, hcmd, hok,
                hdm.1, hdm.2, responseOf, respFold,
                spec200Json, spec204Empty, responseWriteOps, isResponseWriteOp]
            · rcases hmw : c.commandMiddlewareHandler with _ | mw
              · simp [Client.handleRequest, Client.seekCommand, hread, hex, h1, h2, hcmd,
                  hok, hdm, hmw, responseOf, respFold,
                  spec200Json, spec204Empty, responseWriteOps, isResponseWriteOp]
              · by_cases hmv : mw (resolveCommand c.commands itx).2.1 = false
                  <;> simp [Client.handleRequest, Client.seekCommand, hread, hex, h1, h2,
                        hcmd, hok, hdm, hmw, hmv, responseOf, respFold, spec200Json, spec204Empty, responseWriteOps,
                        isResponseWriteOp]
          · rw [Bool.not_eq_true] at hok
            simp [Client.handleRequest, Client.seekCommand, hread, hex, h1, h2, hcmd, hok,
              responseOf, respFold,
              spec200Json, spec204Empty, responseWriteOps, isResponseWriteOp,
              BodyTag.isJsonBody]
      · by_cases h3 : t = MESSAGE_COMPONENT_TYPE
        · rcases hcomp : b.componentItx with _ | itx
          · simp [Client.handleRequest, hread, hex, h1, h2, h3, hcomp, responseOf, respFold,
              spec200Json, spec204Empty, responseWriteOps, isResponseWriteOp]
          · rcases hperm : c.components.lookup itx.Data.CustomId with _ | pb
            · rcases hque : c.queuedComponents.lookup itx.Data.CustomId with _ | qb
              · by_cases hch : c.componentHandler
                  <;> simp [Client.handleRequest, hread, hex, h1, h2, h3, hcomp, hperm,
                        hque, hch, responseOf, respFold,
                        spec200Json, spec204Empty, responseWriteOps, isResponseWriteOp]
              · cases qb
                · by_cases hch : c.componentHandler
                    <;> simp [Client.handleRequest, hread, hex, h1, h2, h3, hcomp, hperm,
                          hque, hch, responseOf, respFold,
                          spec200Json, spec204Empty, responseWriteOps, isResponseWriteOp]
                · simp [Client.handleRequest, hread, hex, h1, h2, h3, hcomp, hperm, hque,
                    responseOf, respFold, spec200Json, spec204Empty, responseWriteOps,
                    isResponseWriteOp, BodyTag.isJsonBody]
            · cases pb
              · rcases hque : c.queuedComponents.lookup itx.Data.CustomId with _ | qb
                · by_cases hch : c.componentHandler
                    <;> simp [Client.handleRequest, hread, hex, h1, h2, h3, hcomp, hperm,
                          hque, hch, responseOf, respFold,
                          spec200Json, spec204Empty, responseWriteOps, isResponseWriteOp]
                · cases qb
                  · by_cases hch : c.componentHandler
                      <;> simp [Client.handleRequest, hread, hex, h1, h2, h3, hcomp, hperm,
                            hque, hch, responseOf, respFold,
                            spec200Json, spec204Empty, responseWriteOps, isResponseWriteOp]
                  · simp [Client.handleRequest, hread, hex, h1, h2, h3, hcomp, hperm, hque,
                      responseOf, respFold, spec200Json, spec204Empty, responseWriteOps,
                      isResponseWriteOp, BodyTag.isJsonBody]
              · simp [Client.handleRequest, hread, hex, h1, h2, h3, hcomp, hperm,
                  responseOf, respFold, spec200Json, spec204Empty, responseWriteOps,
                  isResponseWriteOp]
        · by_cases h4 : t = APPLICATION_COMMAND_AUTO_COMPLETE_TYPE
          · rcases hcmd : b.commandItx with _ | itx
            · simp [Client.handleRequest, hread, hex, h1, h2, h3, h4, hcmd, responseOf, respFold,
                spec200Json, spec204Empty, responseWriteOps, isResponseWriteOp]
            · by_cases hok : (resolveCommand c.commands itx).2.2 = true
              · by_cases hauto : (resolveCommand c.commands itx).1.hasAutoCompleteHandler = true
                · by_cases hlen : (resolveCommand c.commands itx).1.Options.length = 0
                    <;> simp [Client.handleRequest, Client.seekCommand, hread, hex, h1, h2,
                          h3, h4, hcmd, hok, hauto, hlen, responseOf, respFold, spec200Json, spec204Empty, responseWriteOps,
                          isResponseWriteOp, BodyTag.isJsonBody]
                · rw [Bool.not_eq_true] at hauto
                  simp [Client.handleRequest, Client.seekCommand, hread, hex, h1, h2, h3, h4,
                    hcmd, hok, hauto, responseOf, respFold, spec200Json, spec204Empty, responseWriteOps,
                    isResponseWriteOp]
              · rw [Bool.not_eq_true] at hok
                simp [Client.handleRequest, Client.seekCommand, hread, hex, h1, h2, h3, h4,
                  hcmd, hok, responseOf, respFold,
                  spec200Json, spec204Empty, responseWriteOps, isResponseWriteOp]
          · by_cases h5 : t = MODAL_SUBMIT_INTERACTION_TYPE
            · rcases hmod : b.modalItx with _ | itx
              · simp [Client.handleRequest, hread, hex, h1, h2, h3, h4, h5, hmod, responseOf, respFold, spec200Json, spec204Empty, responseWriteOps,
                  isResponseWriteOp]
              · rcases hperm : c.modals.lookup itx.Data.CustomId with _ | pb
                · rcases hque : c.queuedModals.lookup itx.Data.CustomId with _ | qb
                  · by_cases hmh : c.modalHandler
                      <;> simp [Client.handleRequest, hread, hex, h1, h2, h3, h4, h5, hmod,
                            hperm, hque, hmh, responseOf, respFold,
                            spec200Json, spec204Empty, responseWriteOps, isResponseWriteOp]
                  · cases qb
                    · by_cases hmh : c.modalHandler
                        <;> simp [Client.handleRequest, hread, hex, h1, h2, h3, h4, h5, hmod,
                              hperm, hque, hmh, responseOf, respFold,
                              spec200Json, spec204Empty, responseWriteOps, isResponseWriteOp]
                    · by_cases hmh : c.modalHandler
                        <;> simp [Client.handleRequest, hread, hex, h1, h2, h3, h4, h5, hmod,
                              hperm, hque, hmh, responseOf, respFold,
                              spec200Json, spec204Empty, responseWriteOps, isResponseWriteOp,
                              BodyTag.isJsonBody]
                · cases pb
                  · rcases hque : c.queuedModals.lookup itx.Data.CustomId with _ | qb
                    · by_cases hmh : c.modalHandler
                        <;> simp [Client.handleRequest, hread, hex, h1, h2, h3, h4, h5, hmod,
                              hperm, hque, hmh, responseOf, respFold,
                              spec200Json, spec204Empty, responseWriteOps, isResponseWriteOp]
                    · cases qb
                      · by_cases hmh : c.modalHandler
                          <;> simp [Client.handleRequest, hread, hex, h1, h2, h3, h4, h5,
                                hmod, hperm, hque, hmh, responseOf, respFold,
                                spec200Json, spec204Empty, responseWriteOps, isResponseWriteOp]
                      · by_cases hmh : c.modalHandler
                          <;> simp [Client.handleRequest, hread, hex, h1, h2, h3, h4, h5,
                                hmod, hperm, hque, hmh, responseOf, respFold,
                                spec200Json, spec204Empty, responseWriteOps, isResponseWriteOp,
                                BodyTag.isJsonBody]
                  · simp [Client.handleRequest, hread, hex, h1, h2, h3, h4, h5, hmod, hperm,
                      responseOf, respFold, spec200Json, spec204Empty, responseWriteOps,
                      isResponseWriteOp]
            · simp [Client.handleRequest, hread, hex, h1, h2, h3, h4, h5, responseOf, respFold, spec200Json, spec204Empty, responseWriteOps,
                isResponseWriteOp]

/-- Witness for claim C7 (amended) at concrete inputs: a GET request is
answered 405 with no verification, an unverified POST is answered 401,
and a verified parsed button dispatch satisfies the amended response
shape. -/
theorem c7_response_codes_amended_witness :
    (c7client.handleDiscordWebhookRequests "GET" true none).1 = [.httpError 405]
    ∧ (c7client.handleDiscordWebhookRequests "POST" false none).1 = [.verify, .httpError 401]
    ∧ (spec200Json (responseOf (c7client.handleDiscordWebhookRequests "POST" true
          (some (buttonEventItx "b"))).1) = true
       ∨ spec204Empty (responseOf (c7client.handleDiscordWebhookRequests "POST" true
          (some (buttonEventItx "b"))).1) = true
       ∨ responseWriteOps (c7client.handleDiscordWebhookRequests "POST" true
          (some (buttonEventItx "b"))).1 = 0) :=
  ⟨c7_response_codes_amended.1 c7client "GET" true none (by decide),
   c7_response_codes_amended.2.1 c7client none,
   c7_response_codes_amended.2.2.2.1 c7client (buttonEventItx "b")⟩


/-- Every client built by CreateClient has the zero values in the two
fields the constructor omits: the nil pre-command handler and the nil
button queue map. -/
lemma createClient_zero_fields (options : ClientOptions) (c : client)
    (h : CreateClient options = some c) :
    c.preCommandExecutionHandler = none ∧ c.queuedButtons = none := by
  unfold CreateClient at h
  cases hd : hexDecodeString options.PublicKey with
  | none =>
    rw [hd] at h
    exact absurd h (by simp)
  | some key =>
    rw [hd] at h
    simp only [Option.some.injEq] at h
    subst h
    exact ⟨rfl, rfl⟩

/-- Command registrations never touch the pre-command handler field. -/
lemma registrations_preserve_pre :
    ∀ (regs : List RegAction) (c c2 : client),
      runRegistrations c regs = .ok c2 →
      c2.preCommandExecutionHandler = c.preCommandExecutionHandler := by
  intro regs
  induction regs with
  | nil =>
    intro c c2 h
    simp [runRegistrations] at h
    subst h
    rfl
  | cons a rest ih =>
    intro c c2 h
    cases a with
    | root cmd =>
      simp only [runRegistrations] at h
      cases hs : c.RegisterCommand cmd with
      | error e => rw [hs] at h; simp at h
      | ok c3 =>
        rw [hs] at h
        have h2 := ih c3 c2 h
        have h3 : c3.preCommandExecutionHandler = c.preCommandExecutionHandler := by
          unfold client.RegisterCommand at hs
          cases hl : c.commands.lookup cmd.Name with
          | none =>
            rw [hl] at hs
            simp only [Except.ok.injEq] at hs
            subst hs
            rfl
          | some tree =>
            rw [hl] at hs
            simp at hs
        rw [h2, h3]
    | sub cmd rootName =>
      simp only [runRegistrations] at h
      cases hs : c.RegisterSubCommand cmd rootName with
      | error e => rw [hs] at h; simp at h
      | ok c3 =>
        rw [hs] at h
        have h2 := ih c3 c2 h
        have h3 : c3.preCommandExecutionHandler = c.preCommandExecutionHandler := by
          unfold client.RegisterSubCommand at hs
          cases hl : c.commands.lookup rootName with
          | some tree =>
            rw [hl] at hs
            simp only [Except.ok.injEq] at hs
            subst hs
            rfl
          | none =>
            rw [hl] at hs
            simp at hs
        rw [h2, h3]

/-- A client whose pre-command handler field is nil never emits a
pre-command handler invocation, whatever the request. -/
lemma dispatch_no_pre_call (c : client) (hpre : c.preCommandExecutionHandler = none)
    (method : String) (verified : Bool) (parsed : Option Interaction) :
    countPreHandlerCalls (c.handleDiscordWebhookRequests method verified parsed).1 = 0 := by
  simp only [client.handleDiscordWebhookRequests, hpre]
  repeat' split
  all_goals simp [countPreHandlerCalls, isPreHandlerCall, terminateCommandInteraction]

/-- Claim C8: CreateClient never copies the PreCommandExecutionHandler
option into the client (the field keeps its zero value nil), command
registrations preserve that, and consequently no command dispatched
through such a client ever invokes the pre-command hook, regardless of
what the caller supplied in the options. -/
theorem c8_precommand_handler_never_copied :
    ∀ (opts : ClientOptions) (c c2 : client) (regs : List RegAction),
      CreateClient opts = some c → runRegistrations c regs = .ok c2 →
      c2.preCommandExecutionHandler = none
      ∧ ∀ (method : String) (verified : Bool) (parsed : Option Interaction),
          countPreHandlerCalls (c2.handleDiscordWebhookRequests method verified parsed).1 = 0 := by
  intro opts c c2 regs hcc hreg
  have h1 : c2.preCommandExecutionHandler = none := by
    rw [registrations_preserve_pre regs c c2 hreg, (createClient_zero_fields opts c hcc).1]
  exact ⟨h1, fun method verified parsed => dispatch_no_pre_call c2 h1 method verified parsed⟩

/-- Witness for claim C8: options supplying a pre-command handler still
produce, after registering cmd8, a client whose handler field is nil and
whose command dispatch records zero pre-handler calls. -/
theorem c8_precommand_handler_never_copied_witness :
    c8client1.preCommandExecutionHandler = none
    ∧ countPreHandlerCalls
        (c8client1.handleDiscordWebhookRequests "POST" true (some c8Itx)).1 = 0 :=
  ⟨(c8_precommand_handler_never_copied c8opts c8client0 c8client1 c8regs rfl rfl).1,
   (c8_precommand_handler_never_copied c8opts c8client0 c8client1 c8regs rfl rfl).2
     "POST" true (some c8Itx)⟩

/-- Claim C9 counterexample: calling CreateButtonMenu with an empty
CustomIds list on a client built by CreateClient does not panic (the
assignment loop never runs), refuting the claim that any call to
CreateButtonMenu on such a client aborts with a runtime panic. -/
theorem c9_counterexample_empty_arm_no_panic :
    CreateClient c9opts = some c9client
    ∧ exceptIsOk (c9client.CreateButtonMenu [] 2 0) = true :=
  ⟨rfl, rfl⟩

/-- Claim C9 as amended: the client returned by CreateClient has a nil
queuedButtons map, so any call to CreateButtonMenu with a non-empty
CustomIds list assigns into the nil map and aborts with a runtime panic
(a call with an empty list does not panic but arms no key either, so no
wait is ever successfully armed on such a client). -/
theorem c9_nonempty_arm_panics :
    ∀ (opts : ClientOptions) (c : client) (keys : List String) (timeout handlerId : Nat),
      CreateClient opts = some c → keys ≠ [] →
      c.queuedButtons = none
      ∧ c.CreateButtonMenu keys timeout handlerId = .error .nilMapAssignment := by
  intro opts c keys timeout handlerId hcc hne
  have hqb : c.queuedButtons = none := (createClient_zero_fields opts c hcc).2
  refine ⟨hqb, ?_⟩
  cases keys with
  | nil => exact absurd rfl hne
  | cons k rest =>
    simp [client.CreateButtonMenu, hqb, assignAll]

/-- Witness for claim C9 (amended): arming the single key x on the
CreateClient-built client panics with the nil map assignment. -/
theorem c9_nonempty_arm_panics_witness :
    c9client.queuedButtons = none
    ∧ c9client.CreateButtonMenu ["x"] 2 0 = .error .nilMapAssignment :=
  c9_nonempty_arm_panics c9opts c9client ["x"] 2 0 rfl (by decide)

/-- Claim C10: when the underlying REST request succeeds but the success
body does not unmarshal, FetchUser and FetchMember return the zero-value
User and Member together with a nil error (the unmarshal error is
discarded and the stale nil request error is re-checked), not the
failed-to-parse error. -/
theorem c10_fetch_ignores_unmarshal_failure :
    ∀ (request : String → String → Except String (List Nat))
      (uU : List Nat → Option User) (uM : List Nat → Option Member)
      (id g m : Nat) (rawU rawM : List Nat),
      request "GET" ("/users/" ++ toString id) = .ok rawU →
      uU rawU = none →
      request "GET" ("/guilds/" ++ toString g ++ "/members/" ++ toString m) = .ok rawM →
      uM rawM = none →
      FetchUser request uU id = .ok User.zero
      ∧ FetchMember request uM g m = .ok Member.zero := by
  intro request uU uM id g m rawU rawM h1 h2 h3 h4
  constructor
  · unfold FetchUser
    rw [h1]
    simp [h2]
  · unfold FetchMember
    rw [h3]
    simp [h4]

/-- Witness for claim C10 at concrete oracles: a request answering with
a fixed body that the unmarshallers reject yields ok with the zero
values. -/
theorem c10_fetch_ignores_unmarshal_failure_witness :
    FetchUser c10request c10unmarshalUser 1 = .ok User.zero
    ∧ FetchMember c10request c10unmarshalMember 2 3 = .ok Member.zero :=
  c10_fetch_ignores_unmarshal_failure c10request c10unmarshalUser c10unmarshalMember
    1 2 3 [1, 2, 3] [1, 2, 3] rfl rfl rfl rfl

end Tempest
